import Mathlib

/-!
Shallow embedding of `src/testsend7.py` (daemonized Bluetooth GPS tracker)
and verification of its specification.

The Python program is single-threaded; its loops are embedded as structural
recursion over finite lists of environment inputs (poll results, accept
outcomes, send outcomes), one list element per loop iteration that runs
before the daemon stops.  Python floats carried by gpsd reports are opaque
pass-through payloads here (no arithmetic is ever performed on them), so
they are modelled by an `Int` payload inside `JVal.num`.
-/

namespace Testsend7

/-- A JSON-serializable value as built by `get_gps_data`: either a numeric
payload (Python float/int, opaque pass-through) or a string. -/
inductive JVal where
  | num (n : Int)
  | str (s : String)
deriving DecidableEq, Repr

/-- A gpsd report as observed by `get_gps_data`: `report['class']` plus the
optional attributes the code reads via `hasattr`/`getattr`
(`lat`, `lon`, `alt`, `speed`, `time`); `none` models a missing attribute. -/
structure GpsReport where
  cls : String
  lat : Option JVal
  lon : Option JVal
  alt : Option JVal
  speed : Option JVal
  time : Option JVal
deriving DecidableEq, Repr

/-- Outcome of `self.gps_session.next()`: a report, or an exception
(`err`), which the bare `except: pass` in `get_gps_data` swallows. -/
inductive PollResult where
  | report (r : GpsReport)
  | err
deriving DecidableEq, Repr

/-- `DaemonGPSTracker.get_gps_data` (src/testsend7.py lines 173-189):
returns the six-entry dict (as an ordered association list, matching the
insertion order of the Python dict literal) when the report has class
`'TPV'` and both `lat` and `lon` attributes; otherwise returns `None`.
Missing `alt`/`speed` default to `0`, missing `time` defaults to `''`.
Any exception from `next()` yields `None` as well. -/
def get_gps_data : PollResult → Option (List (String × JVal))
  | PollResult.err => none
  | PollResult.report r =>
    if r.cls = "TPV" then
      match r.lat, r.lon with
      | some la, some lo =>
        some [("type", JVal.str "gps"),
              ("latitude", la),
              ("longitude", lo),
              ("altitude", r.alt.getD (JVal.num 0)),
              ("speed", r.speed.getD (JVal.num 0)),
              ("timestamp", r.time.getD (JVal.str ""))]
      | _, _ => none
    else none

/-- Serialization of one value, as `json.dumps` renders it. -/
def jdumpVal : JVal → String
  | JVal.num n => toString n
  | JVal.str s => "\"" ++ s ++ "\""

/-- Serialization of one key/value pair, `"key": value`. -/
def jdumpPair (p : String × JVal) : String :=
  "\"" ++ p.1 ++ "\": " ++ jdumpVal p.2

/-- `json.dumps` on the dict built by `get_gps_data`: entries in insertion
order, separated by `", "`, wrapped in braces. -/
def jsonDumps (kvs : List (String × JVal)) : String :=
  "\x7b" ++ String.intercalate ", " (kvs.map jdumpPair) ++ "\x7d"

/-- `str.encode('utf-8')`: the UTF-8 byte sequence of a codepoint. -/
def utf8EncodeCp (n : Nat) : List Nat :=
  if n < 0x80 then [n]
  else if n < 0x800 then [0xC0 + n / 64, 0x80 + n % 64]
  else if n < 0x10000 then [0xE0 + n / 4096, 0x80 + (n / 64) % 64, 0x80 + n % 64]
  else [0xF0 + n / 262144, 0x80 + (n / 4096) % 64, 0x80 + (n / 64) % 64, 0x80 + n % 64]

/-- `str.encode('utf-8')` on a whole string. -/
def encodeUtf8 (s : String) : List Nat :=
  s.data.flatMap (fun c => utf8EncodeCp c.toNat)

/-- One iteration of the `while self.running` loop in `send_gps_data`:
the result of the `gps_session.next()` poll, and whether the
`client_sock.send` call would succeed this iteration (consulted only when
a send is actually attempted). -/
structure Cycle where
  poll : PollResult
  sendOk : Bool
deriving DecidableEq, Repr

/-- `DaemonGPSTracker.send_gps_data` (src/testsend7.py lines 191-210),
run over a finite list of iterations (the iterations executed while
`self.running` holds).  Returns the UTF-8 byte strings passed to
`client_sock.send` (each is `json.dumps(gps_data) + '\n'` encoded), and
whether the loop exited via the `break` in the send-failure handler
(`Connection lost`).  `hasClient` is the truthiness of `self.client_sock`.
When `get_gps_data` returns `None` nothing is sent and the loop sleeps
and continues; a failed send breaks out immediately. -/
def send_gps_data (hasClient : Bool) : List Cycle → List (List Nat) × Bool
  | [] => ([], false)
  | c :: rest =>
    match get_gps_data c.poll with
    | none => send_gps_data hasClient rest
    | some kvs =>
      if hasClient then
        if c.sendOk then
          let r := send_gps_data hasClient rest
          (encodeUtf8 (jsonDumps kvs ++ "\n") :: r.1, r.2)
        else ([], true)
      else send_gps_data hasClient rest

/-- One iteration of the `while self.running` loop in `run`
(src/testsend7.py lines 225-232): whether `accept_connection` succeeds,
and, if it does, the streaming iterations of the resulting session. -/
structure Round where
  acceptOk : Bool
  cycles : List Cycle
deriving DecidableEq, Repr

/-- Observable connection-level events of the daemon's main loop. -/
inductive Ev where
  | accepted
  | sentLine (bytes : List Nat)
  | closedClient
deriving DecidableEq, Repr

/-- `DaemonGPSTracker.run`'s serving loop (src/testsend7.py lines 225-232)
as the trace of connection events it produces: on a successful accept the
session is handed to `send_gps_data` synchronously (with
`self.client_sock` set), after which the client socket is closed and the
loop re-enters accept; on a failed accept it just sleeps and loops. -/
def runLoop : List Round → List Ev
  | [] => []
  | r :: rest =>
    if r.acceptOk then
      Ev.accepted :: ((send_gps_data true r.cycles).1.map Ev.sentLine)
        ++ Ev.closedClient :: runLoop rest
    else runLoop rest

/-- Checker for the single-session discipline over an event trace: the
Boolean state says whether a session is currently open; an `accepted` is
legal only with no session open, a `sentLine` only inside a session, and
`closedClient` closes the open session. -/
def sessionCheck : Bool → List Ev → Bool
  | _, [] => true
  | false, Ev.accepted :: evs => sessionCheck true evs
  | true, Ev.accepted :: _ => false
  | true, Ev.sentLine _ :: evs => sessionCheck true evs
  | false, Ev.sentLine _ :: _ => false
  | true, Ev.closedClient :: evs => sessionCheck false evs
  | false, Ev.closedClient :: _ => false

/-- An iteration that does not trigger the send-failure `break`: either it
produces no data to send, or its send succeeds. -/
def cycleNoBreak (c : Cycle) : Bool :=
  (get_gps_data c.poll).isNone || c.sendOk

/-- The telemetry source yields no usable fix this poll: the poll raised
internally, or the report is not `'TPV'`-class, or it lacks `lat`/`lon`. -/
def pollYieldsNoFix : PollResult → Bool
  | PollResult.err => true
  | PollResult.report r => !(r.cls = "TPV" : Bool) || r.lat.isNone || r.lon.isNone

/-! ## Daemon lifecycle: cleanup, startup path, PID file -/

/-- A socket object held by the tracker. -/
inductive Sock where
  | sopen
  | sclosed
deriving DecidableEq, Repr

/-- The tracker's resource state as touched by `cleanup`
(src/testsend7.py lines 234-259): the `self.running` flag, the optional
client and server socket objects (`None` or a socket that is open or
already closed), and whether the PID file exists on disk. -/
structure TrackerState where
  running : Bool
  client_sock : Option Sock
  server_sock : Option Sock
  pid_file : Bool
deriving DecidableEq, Repr

/-- `os.remove(path)`: raises `FileNotFoundError` when the file is absent,
otherwise deletes it. -/
def os_remove (present : Bool) : Except String Unit :=
  if present then Except.ok () else Except.error "FileNotFoundError"

/-- `socket.close()`: closes the socket; closing an already-closed socket
is a no-op and raises nothing (and the call sites wrap it in
`try/except` anyway). -/
def sockClose : Sock → Sock
  | _ => Sock.sclosed

/-- `DaemonGPSTracker.cleanup` (src/testsend7.py lines 234-259): sets
`self.running = False`, best-effort `sdptool del SP` (external process,
no tracker state), closes `self.client_sock` and `self.server_sock` when
they are set (each inside `try/except`), and removes the PID file only
after an `os.path.exists` check.  The `Except` layer records any uncaught
exception; `cleanup` never produces one. -/
def cleanup (s : TrackerState) : Except String TrackerState :=
  let s1 : TrackerState :=
    { s with running := false,
             client_sock := s.client_sock.map sockClose,
             server_sock := s.server_sock.map sockClose }
  if s1.pid_file then
    (os_remove s1.pid_file).map (fun _ => { s1 with pid_file := false })
  else Except.ok s1

/-- The spec's `DaemonState` abstraction. -/
inductive DaemonState where
  | Stopped
  | Starting
  | Running
deriving DecidableEq, Repr

/-- Process-level state of the daemon along the start path: whether the
daemon process is alive, the `self.running` flag, whether the listening
socket is open, and whether the PID file exists. -/
structure ProcState where
  alive : Bool
  running : Bool
  serverOpen : Bool
  pidFile : Bool
deriving DecidableEq, Repr

/-- `DaemonGPSTracker.daemonize` (src/testsend7.py lines 41-86): forks
into a background process, writes the PID file, installs the SIGTERM and
SIGINT handlers. -/
def daemonize (s : ProcState) : ProcState :=
  { s with alive := true, pidFile := true }

/-- `DaemonGPSTracker.signal_handler` (src/testsend7.py lines 88-93):
sets `running = False`, calls `cleanup` (which closes both sockets and
removes the PID file), then `sys.exit(0)`. -/
def signal_handler (s : ProcState) : ProcState :=
  { s with running := false, serverOpen := false, pidFile := false, alive := false }

/-- `DaemonGPSTracker.run` (src/testsend7.py lines 212-232) at the
lifecycle level, driven by the environment: `setupOk` is whether
`setup_bluetooth` succeeds, `sigArrives` whether a termination signal
arrives during the serving loop.  On setup failure `run` returns, the
`start` code path falls off the end of the program and the process exits
— no cleanup runs on this path.  On success the flag `self.running` is
set and the serving loop runs until a signal fires `signal_handler`. -/
def runMain (setupOk : Bool) (sigArrives : Bool) (s : ProcState) : ProcState :=
  if setupOk then
    let s1 : ProcState := { s with serverOpen := true, running := true }
    if sigArrives then signal_handler s1 else s1
  else { s with alive := false }

/-- `start_daemon` (src/testsend7.py lines 261-265): `daemonize` then
`run`. -/
def start_daemon_proc (setupOk : Bool) (sigArrives : Bool) (s : ProcState) : ProcState :=
  runMain setupOk sigArrives (daemonize s)

/-- The spec's `DaemonState` read off the process state: a dead process is
Stopped; a live daemonized process is Running once the serving flag is
set, Starting before that. -/
def dstateOf (s : ProcState) : DaemonState :=
  if s.alive then
    (if s.running then DaemonState.Running else DaemonState.Starting)
  else DaemonState.Stopped

/-- The not-yet-started process: not alive, no PID file. -/
def initialProc : ProcState :=
  { alive := false, running := false, serverOpen := false, pidFile := false }

/-- The claimed invariant: the PID file exists iff the daemon is Starting
or Running. -/
def pidInvariant (s : ProcState) : Prop :=
  s.pidFile = true ↔ (dstateOf s = DaemonState.Starting ∨ dstateOf s = DaemonState.Running)

/-! ## Control CLI: stop, status, argument handling -/

/-- Result of `stop_daemon` (src/testsend7.py lines 267-285):
which pid (if any) was sent SIGTERM, whether `stop_daemon` itself removed
the PID file after the grace period, and the message printed. -/
structure StopResult where
  sigTermSentTo : Option Nat
  removedByStop : Bool
  msg : String
deriving DecidableEq, Repr

/-- `stop_daemon` (src/testsend7.py lines 267-285): reads the pid from
the PID file (`FileNotFoundError` when absent), sends SIGTERM via
`os.kill`, sleeps 1 second (the grace period, during which the daemon's
own signal handler may remove the file — `fileAfterGrace` says whether
the file is still there afterwards), and, if the PID file still exists,
removes it.  `killOk` is whether `os.kill` raises. -/
def stop_daemon (pidRecord : Option Nat) (killOk : Bool) (fileAfterGrace : Bool) :
    StopResult :=
  match pidRecord with
  | none => ⟨none, false, "Daemon is not running"⟩
  | some pid =>
    if killOk then
      if fileAfterGrace then ⟨some pid, true, s!"Stopped daemon (PID: {pid})"⟩
      else ⟨some pid, false, s!"Stopped daemon (PID: {pid})"⟩
    else ⟨none, false, "Error stopping daemon"⟩

/-- What `status_daemon` reports. -/
inductive StatusReport where
  | running (pid : Nat)
  | notRunning
  | stale
deriving DecidableEq, Repr

/-- Result of `status_daemon`: the report, the liveness probe performed
(`some (pid, signalNumber)` — the code always probes with signal 0, which
delivers nothing and kills nothing), and whether the stale PID file was
removed. -/
structure StatusResult where
  report : StatusReport
  probe : Option (Nat × Nat)
  removedStale : Bool
deriving DecidableEq, Repr

/-- `status_daemon` (src/testsend7.py lines 287-305): reads the pid from
the PID file (`FileNotFoundError` → "not running"); probes liveness with
`os.kill(pid, 0)`; on success reports running, on `ProcessLookupError`
reports a stale file and removes it. -/
def status_daemon (pidRecord : Option Nat) (alive : Nat → Bool) : StatusResult :=
  match pidRecord with
  | none => ⟨StatusReport.notRunning, none, false⟩
  | some pid =>
    if alive pid then ⟨StatusReport.running pid, some (pid, 0), false⟩
    else ⟨StatusReport.stale, some (pid, 0), true⟩

/-- The four recognized CLI commands. -/
inductive Cmd where
  | start
  | stop
  | status
  | restart
deriving DecidableEq, Repr

/-- Outcome of the `__main__` argument handling: an early `sys.exit(1)`
(after the usage text, the permission error, or the unknown-command
message), or dispatch into one of the four lifecycle operations. -/
inductive CliOutcome where
  | exitUsage
  | exitNotRoot
  | exitUnknown (cmd : String)
  | dispatch (c : Cmd)
deriving DecidableEq, Repr

/-- ASCII lowering of one character (`str.lower` on the command strings
involved here, which are ASCII). -/
def asciiLowerChar (c : Char) : Char :=
  if 65 ≤ c.toNat ∧ c.toNat ≤ 90 then Char.ofNat (c.toNat + 32) else c

/-- `str.lower()` as used on `sys.argv[1]`. -/
def strLower (s : String) : String :=
  String.mk (s.data.map asciiLowerChar)

/-- The `__main__` block (src/testsend7.py lines 307-336): with fewer
than two argv entries, print usage and `sys.exit(1)`; with a non-zero
effective uid, print the root error and `sys.exit(1)`; otherwise lower
`sys.argv[1]` and dispatch on it, printing the unknown-command message
and exiting 1 when it matches none of the four commands.  `arg` is
`sys.argv[1]` when present. -/
def cliMain (arg : Option String) (euid : Nat) : CliOutcome :=
  match arg with
  | none => CliOutcome.exitUsage
  | some a =>
    if euid ≠ 0 then CliOutcome.exitNotRoot
    else
      let command := strLower a
      if command = "start" then CliOutcome.dispatch Cmd.start
      else if command = "stop" then CliOutcome.dispatch Cmd.stop
      else if command = "status" then CliOutcome.dispatch Cmd.status
      else if command = "restart" then CliOutcome.dispatch Cmd.restart
      else CliOutcome.exitUnknown command

/-- Exit code produced directly by the argument handling (`none` when the
process continues into a dispatched command). -/
def outcomeExitCode : CliOutcome → Option Nat
  | CliOutcome.exitUsage => some 1
  | CliOutcome.exitNotRoot => some 1
  | CliOutcome.exitUnknown _ => some 1
  | CliOutcome.dispatch _ => none

/-- Whether the outcome leads to creating the PID file: only the `start`
and `restart` dispatches reach `start_daemon`, whose `daemonize` writes
it; the early-exit outcomes touch nothing. -/
def outcomeCreatesPidFile : CliOutcome → Bool
  | CliOutcome.dispatch Cmd.start => true
  | CliOutcome.dispatch Cmd.restart => true
  | _ => false

/-- Whether the outcome leads to opening the listening socket: only the
`start` and `restart` dispatches reach `run`/`setup_bluetooth`. -/
def outcomeOpensSocket : CliOutcome → Bool
  | CliOutcome.dispatch Cmd.start => true
  | CliOutcome.dispatch Cmd.restart => true
  | _ => false

/-- The message lines printed by the early-exit outcomes
(src/testsend7.py lines 309-313, 317, 335). -/
def outcomeMessage : CliOutcome → List String
  | CliOutcome.exitUsage =>
      ["Usage:",
       "  sudo python3 daemon_bt_gps.py start   - Start daemon",
       "  sudo python3 daemon_bt_gps.py stop    - Stop daemon",
       "  sudo python3 daemon_bt_gps.py status  - Check status",
       "  sudo python3 daemon_bt_gps.py restart - Restart daemon"]
  | CliOutcome.exitNotRoot => ["Error: Must run as root (use sudo)"]
  | CliOutcome.exitUnknown c => ["Unknown command: " ++ c]
  | CliOutcome.dispatch _ => []

/-! ## Helper lemmas -/

/-- Appending the terminating `'\n'` appends exactly the byte 10 on the
wire. -/
theorem encodeUtf8_append_newline (s : String) :
    encodeUtf8 (s ++ "\n") = encodeUtf8 s ++ [10] := by
  simp [encodeUtf8, String.data_append, utf8EncodeCp]

/-- Every dict produced by `get_gps_data` has exactly the six fields, in
order, with the constant `"gps"` type first. -/
theorem get_gps_data_some_fields {p : PollResult} {kvs : List (String × JVal)}
    (h : get_gps_data p = some kvs) :
    kvs.map Prod.fst = ["type", "latitude", "longitude", "altitude", "speed", "timestamp"] ∧
    kvs.head? = some ("type", JVal.str "gps") := by
  cases p with
  | err => simp [get_gps_data] at h
  | report r =>
    rw [get_gps_data] at h
    by_cases hc : r.cls = "TPV"
    · rw [if_pos hc] at h
      rcases hla : r.lat with _ | la <;> rcases hlo : r.lon with _ | lo <;>
        rw [hla, hlo] at h <;> simp at h
      subst h; simp
    · rw [if_neg hc] at h; simp at h

/-- A poll with no usable fix produces no record. -/
theorem pollYieldsNoFix_get_none {p : PollResult} (h : pollYieldsNoFix p = true) :
    get_gps_data p = none := by
  cases p with
  | err => rfl
  | report r =>
    rw [pollYieldsNoFix] at h
    rw [get_gps_data]
    by_cases hc : r.cls = "TPV"
    · rw [if_pos hc]
      simp [hc] at h
      rcases hla : r.lat with _ | la <;> rcases hlo : r.lon with _ | lo <;> simp
      rw [hla, hlo] at h; simp at h
    · rw [if_neg hc]

/-- A span of iterations in which every poll yields nothing sends nothing
and never breaks the session. -/
theorem send_gps_data_all_none (hasClient : Bool) (cycles : List Cycle)
    (h : ∀ c ∈ cycles, get_gps_data c.poll = none) :
    send_gps_data hasClient cycles = ([], false) := by
  induction cycles with
  | nil => rfl
  | cons c rest ih =>
    rw [send_gps_data, h c (by simp)]
    exact ih (fun x hx => h x (by simp [hx]))

/-- Iterations that never trigger the send-failure `break` compose: the
loop over `pre ++ rest` sends everything `pre` sends, then behaves as the
loop over `rest`. -/
theorem send_gps_data_append_noBreak (pre rest : List Cycle)
    (h : ∀ c ∈ pre, cycleNoBreak c = true) :
    send_gps_data true (pre ++ rest) =
      ((send_gps_data true pre).1 ++ (send_gps_data true rest).1,
       (send_gps_data true rest).2) := by
  induction pre with
  | nil => simp [send_gps_data]
  | cons c pre' ih =>
    have hc : cycleNoBreak c = true := h c (by simp)
    have hrest : ∀ x ∈ pre', cycleNoBreak x = true := fun x hx => h x (by simp [hx])
    rw [List.cons_append, send_gps_data, send_gps_data]
    rw [cycleNoBreak] at hc
    rcases hg : get_gps_data c.poll with _ | kvs
    · exact ih hrest
    · rw [hg] at hc
      simp at hc
      simp [hc, ih hrest]

/-- Passing through one whole session (its sent lines, then the client
close) returns the session checker to the idle state. -/
theorem sessionCheck_through_session (lines : List (List Nat)) (k : List Ev) :
    sessionCheck true (lines.map Ev.sentLine ++ Ev.closedClient :: k) =
      sessionCheck false k := by
  induction lines with
  | nil => rfl
  | cons l ls ih => simpa [sessionCheck] using ih

/-- `cleanup` always succeeds, and its result has the serving flag down,
both sockets closed when present, and no PID file. -/
theorem cleanup_eq (s : TrackerState) :
    cleanup s = Except.ok
      { running := false, client_sock := s.client_sock.map sockClose,
        server_sock := s.server_sock.map sockClose, pid_file := false } := by
  rcases s with ⟨r, cs, ss, pf⟩
  cases pf <;> simp [cleanup, os_remove, Except.map]

/-! ## Claim theorems -/

/-- C1: the claimed invariant — PID file exists iff DaemonState is
Starting or Running — FAILS on the startup path where `setup_bluetooth`
cannot open the server: `daemonize` has already written the PID file,
`run` returns without any cleanup, the process exits (Stopped), and the
PID file is left on disk.  The invariant does hold initially, after
`daemonize` (Starting), while Running, and after a signal-driven
shutdown; only the failed-server-open path violates it. -/
theorem pid_file_left_after_failed_server_open :
    (¬ pidInvariant (start_daemon_proc false false initialProc) ∧
      dstateOf (start_daemon_proc false false initialProc) = DaemonState.Stopped ∧
      (start_daemon_proc false false initialProc).pidFile = true) ∧
    pidInvariant initialProc ∧
    pidInvariant (daemonize initialProc) ∧
    pidInvariant (start_daemon_proc true false initialProc) ∧
    pidInvariant (start_daemon_proc true true initialProc) := by
  refine ⟨⟨?_, rfl, rfl⟩, ?_, ?_, ?_, ?_⟩ <;>
    simp [pidInvariant, start_daemon_proc, runMain, daemonize, signal_handler,
          dstateOf, initialProc]

/-- C2 counterexample: the claim says that when the PID file still exists
after the grace period, `stop` does not remove it itself.  The code's
`stop_daemon` does remove it: on a run where the file is still present
after the 1-second sleep, `removedByStop` is `true`. -/
theorem stop_daemon_removes_file_counterexample :
    (stop_daemon (some 1234) true true).removedByStop = true := rfl

/-- C2 amended: `stop_daemon` on a running daemon reads the PID record,
sends SIGTERM to the recorded pid, waits the 1-second grace period, and
then removes the PID file itself exactly when the file still exists
(rather than leaving its removal to the daemon). -/
theorem stop_daemon_behavior (pid : Nat) (fileAfterGrace : Bool) :
    stop_daemon (some pid) true fileAfterGrace =
      ⟨some pid, fileAfterGrace, s!"Stopped daemon (PID: {pid})"⟩ := by
  cases fileAfterGrace <;> rfl

/-- C3: shutdown (`cleanup`) is idempotent — it never raises, running it
twice equals running it once, and the end state has the serving flag
down, no PID file, and neither socket open. -/
theorem cleanup_idempotent (s : TrackerState) :
    (cleanup s).bind cleanup = cleanup s ∧
    ∃ t, cleanup s = Except.ok t ∧ t.running = false ∧ t.pid_file = false ∧
      t.client_sock ≠ some Sock.sopen ∧ t.server_sock ≠ some Sock.sopen := by
  have hmap : ∀ x : Option Sock, (x.map sockClose).map sockClose = x.map sockClose := by
    intro x; cases x <;> rfl
  constructor
  · have hb : ∀ t : TrackerState, (Except.ok t).bind cleanup = cleanup t := fun _ => rfl
    rw [cleanup_eq s, hb, cleanup_eq]
    simp [hmap]
  · refine ⟨_, cleanup_eq s, rfl, rfl, ?_, ?_⟩ <;>
      simp only []
    · rcases s.client_sock with _ | x <;> simp [sockClose]
    · rcases s.server_sock with _ | y <;> simp [sockClose]

/-- C4: over every sequence of accept/serve rounds, the serving loop's
event trace obeys the single-session discipline: at most one connection
session exists at any instant, sends happen only inside a session, and a
new accept begins only after the previous session's socket was closed. -/
theorem single_session_invariant (rounds : List Round) :
    sessionCheck false (runLoop rounds) = true := by
  induction rounds with
  | nil => rfl
  | cons r rest ih =>
    rw [runLoop]
    by_cases ha : r.acceptOk
    · simp only [ha, if_true]
      show sessionCheck true ((send_gps_data true r.cycles).1.map Ev.sentLine
        ++ Ev.closedClient :: runLoop rest) = true
      rw [sessionCheck_through_session]
      exact ih
    · simp only [ha, if_false]
      exact ih

/-- C5: a failed write during a session ends exactly that session: the
iterations before the failure send their records, the failing write is
not retried, nothing after it in the session runs, and the run loop
closes the client socket and continues with the subsequent rounds (the
daemon keeps running and can accept a new peer). -/
theorem write_failure_ends_session (pre post : List Cycle) (c : Cycle)
    (rest : List Round)
    (hpre : ∀ x ∈ pre, cycleNoBreak x = true)
    (hdata : (get_gps_data c.poll).isSome = true)
    (hfail : c.sendOk = false) :
    send_gps_data true (pre ++ c :: post) = ((send_gps_data true pre).1, true) ∧
    runLoop (⟨true, pre ++ c :: post⟩ :: rest) =
      Ev.accepted :: ((send_gps_data true pre).1.map Ev.sentLine)
        ++ Ev.closedClient :: runLoop rest := by
  rcases hg : get_gps_data c.poll with _ | kvs
  · rw [hg] at hdata; simp at hdata
  · have hstep : send_gps_data true (c :: post) = ([], true) := by
      rw [send_gps_data, hg, hfail]
      simp
    have hall : send_gps_data true (pre ++ c :: post) = ((send_gps_data true pre).1, true) := by
      rw [send_gps_data_append_noBreak pre (c :: post) hpre, hstep]
      simp
    refine ⟨hall, ?_⟩
    rw [runLoop]
    simp only [if_true]
    rw [hall]

/-- C5 witness: a session whose first poll has a fix but whose send
fails ends immediately with nothing sent; the loop closes the client and
the next round's peer is accepted — two full accept/close pairs appear
in the trace without any daemon restart. -/
theorem write_failure_ends_session_witness :
    send_gps_data true
      [⟨PollResult.report ⟨"TPV", some (JVal.num 1), some (JVal.num 2), none, none,
          none⟩, false⟩] = ([], true) ∧
    runLoop
      [⟨true, [⟨PollResult.report ⟨"TPV", some (JVal.num 1), some (JVal.num 2), none,
          none, none⟩, false⟩]⟩, ⟨true, []⟩] =
      [Ev.accepted, Ev.closedClient, Ev.accepted, Ev.closedClient] :=
  write_failure_ends_session [] []
    ⟨PollResult.report ⟨"TPV", some (JVal.num 1), some (JVal.num 2), none, none,
        none⟩, false⟩
    [⟨true, []⟩] (by simp) (by decide) rfl

/-- C6: over any span of consecutive polls in which the telemetry source
yields no fix or raises internally, zero records are written to the
client and the session is never terminated (the loop neither sends nor
breaks). -/
theorem no_fix_sends_nothing (hasClient : Bool) (cycles : List Cycle)
    (h : ∀ c ∈ cycles, pollYieldsNoFix c.poll = true) :
    send_gps_data hasClient cycles = ([], false) :=
  send_gps_data_all_none hasClient cycles
    (fun c hc => pollYieldsNoFix_get_none (h c hc))

/-- C6 witness: two no-fix iterations — an internal polling error and a
non-TPV report — send nothing and do not end the session. -/
theorem no_fix_sends_nothing_witness :
    send_gps_data true
      [⟨PollResult.err, true⟩,
       ⟨PollResult.report ⟨"SKY", none, none, none, none, none⟩, false⟩] = ([], false) :=
  no_fix_sends_nothing true _ (by decide)

/-- C7: every byte string handed to `client_sock.send` is the UTF-8
encoding of a single `json.dumps` record followed by `'\n'` (so it ends
with the byte 10), whose dict came from `get_gps_data` on one of the
session's polls and carries exactly the fields `type` (constant
`"gps"`), `latitude`, `longitude`, `altitude`, `speed`, `timestamp`, in
that order; and when no poll of the session yields a fix, no record at
all is sent. -/
theorem wire_format (cycles : List Cycle) :
    (∀ msg ∈ (send_gps_data true cycles).1,
      ∃ kvs c, c ∈ cycles ∧ get_gps_data c.poll = some kvs ∧
        msg = encodeUtf8 (jsonDumps kvs ++ "\n") ∧
        msg.getLast? = some 10 ∧
        kvs.map Prod.fst = ["type", "latitude", "longitude", "altitude", "speed",
          "timestamp"] ∧
        kvs.head? = some ("type", JVal.str "gps")) ∧
    ((∀ c ∈ cycles, pollYieldsNoFix c.poll = true) → (send_gps_data true cycles).1 = []) := by
  constructor
  · induction cycles with
    | nil => intro msg hmsg; simp [send_gps_data] at hmsg
    | cons c rest ih =>
      intro msg hmsg
      rw [send_gps_data] at hmsg
      rcases hg : get_gps_data c.poll with _ | kvs
      · rw [hg] at hmsg
        obtain ⟨kvs, c', hc', hgc', rest'⟩ := ih msg hmsg
        exact ⟨kvs, c', by simp [hc'], hgc', rest'⟩
      · rw [hg] at hmsg
        simp only [if_true] at hmsg
        by_cases hok : c.sendOk
        · rw [if_pos hok] at hmsg
          simp only [List.mem_cons] at hmsg
          rcases hmsg with hmsg | hmsg
          · refine ⟨kvs, c, by simp, hg, hmsg, ?_, ?_, ?_⟩
            · rw [hmsg, encodeUtf8_append_newline]; simp
            · exact (get_gps_data_some_fields hg).1
            · exact (get_gps_data_some_fields hg).2
          · obtain ⟨kvs', c', hc', hgc', rest'⟩ := ih msg hmsg
            exact ⟨kvs', c', by simp [hc'], hgc', rest'⟩
        · rw [if_neg hok] at hmsg
          simp at hmsg
  · intro h
    rw [send_gps_data_all_none true cycles
      (fun c hc => pollYieldsNoFix_get_none (h c hc))]

/-- C7 witness: a session with one good TPV poll sends exactly the UTF-8
bytes of its six-field JSON record terminated by `'\n'`; the concrete
record satisfies every conjunct of the wire-format theorem. -/
theorem wire_format_witness :
    ∃ kvs c,
      c ∈ [(⟨PollResult.report ⟨"TPV", some (JVal.num 7), some (JVal.num 8),
              none, none, none⟩, true⟩ : Cycle)] ∧
      get_gps_data c.poll = some kvs ∧
      encodeUtf8 (jsonDumps [("type", JVal.str "gps"), ("latitude", JVal.num 7),
          ("longitude", JVal.num 8), ("altitude", JVal.num 0), ("speed", JVal.num 0),
          ("timestamp", JVal.str "")] ++ "\n") =
        encodeUtf8 (jsonDumps kvs ++ "\n") ∧
      (encodeUtf8 (jsonDumps [("type", JVal.str "gps"), ("latitude", JVal.num 7),
          ("longitude", JVal.num 8), ("altitude", JVal.num 0), ("speed", JVal.num 0),
          ("timestamp", JVal.str "")] ++ "\n")).getLast? = some 10 ∧
      kvs.map Prod.fst = ["type", "latitude", "longitude", "altitude", "speed",
        "timestamp"] ∧
      kvs.head? = some ("type", JVal.str "gps") :=
  (wire_format [⟨PollResult.report ⟨"TPV", some (JVal.num 7), some (JVal.num 8),
      none, none, none⟩, true⟩]).1
    (encodeUtf8 (jsonDumps [("type", JVal.str "gps"), ("latitude", JVal.num 7),
      ("longitude", JVal.num 8), ("altitude", JVal.num 0), ("speed", JVal.num 0),
      ("timestamp", JVal.str "")] ++ "\n"))
    (by simp [send_gps_data, get_gps_data])

/-- C8: any CLI invocation without elevated privilege — and likewise one
with no arguments or an unknown command — exits with status 1 after
printing a message, creating no PID file and opening no socket. -/
theorem cli_guard (arg : Option String) (euid : Nat)
    (h : euid ≠ 0 ∨ arg = none ∨
      (∃ a, arg = some a ∧
        strLower a ∉ (["start", "stop", "status", "restart"] : List String))) :
    outcomeExitCode (cliMain arg euid) = some 1 ∧
    outcomeCreatesPidFile (cliMain arg euid) = false ∧
    outcomeOpensSocket (cliMain arg euid) = false ∧
    outcomeMessage (cliMain arg euid) ≠ [] := by
  rcases arg with _ | a
  · simp [cliMain, outcomeExitCode, outcomeCreatesPidFile, outcomeOpensSocket,
      outcomeMessage]
  · by_cases he : euid = 0
    · subst he
      rcases h with h | h | ⟨a', ha', hmem⟩
      · exact absurd rfl h
      · simp at h
      · obtain rfl : a = a' := by injection ha'
        simp only [List.mem_cons, List.mem_singleton, not_or] at hmem
        obtain ⟨h1, h2, h3, h4, -⟩ := hmem
        simp [cliMain, h1, h2, h3, h4, outcomeExitCode, outcomeCreatesPidFile,
          outcomeOpensSocket, outcomeMessage]
    · simp [cliMain, he, outcomeExitCode, outcomeCreatesPidFile, outcomeOpensSocket,
        outcomeMessage]

/-- C8 witness: `start` invoked with effective uid 1000 exits 1 with the
permission message, creating no PID file and opening no socket. -/
theorem cli_guard_witness :
    outcomeExitCode (cliMain (some "start") 1000) = some 1 ∧
    outcomeCreatesPidFile (cliMain (some "start") 1000) = false ∧
    outcomeOpensSocket (cliMain (some "start") 1000) = false ∧
    outcomeMessage (cliMain (some "start") 1000) ≠ [] :=
  cli_guard (some "start") 1000 (Or.inl (by decide))

/-- C9: `status_daemon` has exactly the three claimed outcomes — no PID
file reports not-running with no probe; a PID file whose recorded pid is
alive under the signal-0 probe (which sends signal 0, killing nothing)
reports running; a PID file with a dead pid reports a stale file and
removes it as a side effect. -/
theorem status_daemon_outcomes (pidRecord : Option Nat) (alive : Nat → Bool) :
    (pidRecord = none →
      status_daemon pidRecord alive = ⟨StatusReport.notRunning, none, false⟩) ∧
    (∀ p, pidRecord = some p → alive p = true →
      status_daemon pidRecord alive = ⟨StatusReport.running p, some (p, 0), false⟩) ∧
    (∀ p, pidRecord = some p → alive p = false →
      status_daemon pidRecord alive = ⟨StatusReport.stale, some (p, 0), true⟩) := by
  refine ⟨?_, ?_, ?_⟩
  · rintro rfl; rfl
  · rintro p rfl hp; simp [status_daemon, hp]
  · rintro p rfl hp; simp [status_daemon, hp]

/-- C9 witness: with a PID file recording pid 7 and every process dead,
`status_daemon` reports a stale file and deletes it. -/
theorem status_daemon_outcomes_witness :
    status_daemon (some 7) (fun _ => false) = ⟨StatusReport.stale, some (7, 0), true⟩ :=
  (status_daemon_outcomes (some 7) (fun _ => false)).2.2 7 rfl rfl

/-- C10: a telemetry poll produces a record exactly when the report has
class `'TPV'` with both `lat` and `lon` present; the produced dict is the
six-field record in which a missing `alt` or `speed` defaults to `0` and
a missing `time` defaults to `""`, so every record has all six fields
populated. -/
theorem get_gps_data_record_shape (p : PollResult) :
    ∀ kvs, get_gps_data p = some kvs →
      ∃ r la lo, p = PollResult.report r ∧ r.cls = "TPV" ∧
        r.lat = some la ∧ r.lon = some lo ∧
        kvs = [("type", JVal.str "gps"), ("latitude", la), ("longitude", lo),
               ("altitude", r.alt.getD (JVal.num 0)),
               ("speed", r.speed.getD (JVal.num 0)),
               ("timestamp", r.time.getD (JVal.str ""))] ∧
        kvs.map Prod.fst = ["type", "latitude", "longitude", "altitude", "speed",
          "timestamp"] := by
  intro kvs h
  cases p with
  | err => simp [get_gps_data] at h
  | report r =>
    rw [get_gps_data] at h
    by_cases hc : r.cls = "TPV"
    · rw [if_pos hc] at h
      rcases hla : r.lat with _ | la <;> rcases hlo : r.lon with _ | lo <;>
        rw [hla, hlo] at h <;> simp at h
      exact ⟨r, la, lo, rfl, hc, hla, hlo, h.symm, by rw [← h]; rfl⟩
    · rw [if_neg hc] at h; simp at h

/-- C10 witness: a TPV report with `lat`/`lon` but no `alt`, `speed` or
`time` attribute yields the full six-field record with the documented
defaults. -/
theorem get_gps_data_record_shape_witness :
    ∃ r la lo,
      PollResult.report (⟨"TPV", some (JVal.num 3), some (JVal.num 4), none, none,
          none⟩ : GpsReport) = PollResult.report r ∧
      r.cls = "TPV" ∧ r.lat = some la ∧ r.lon = some lo ∧
      [("type", JVal.str "gps"), ("latitude", JVal.num 3), ("longitude", JVal.num 4),
       ("altitude", JVal.num 0), ("speed", JVal.num 0), ("timestamp", JVal.str "")] =
        [("type", JVal.str "gps"), ("latitude", la), ("longitude", lo),
         ("altitude", r.alt.getD (JVal.num 0)), ("speed", r.speed.getD (JVal.num 0)),
         ("timestamp", r.time.getD (JVal.str ""))] ∧
      ([("type", JVal.str "gps"), ("latitude", JVal.num 3), ("longitude", JVal.num 4),
        ("altitude", JVal.num 0), ("speed", JVal.num 0),
        ("timestamp", JVal.str "")] : List (String × JVal)).map Prod.fst =
        ["type", "latitude", "longitude", "altitude", "speed", "timestamp"] :=
  get_gps_data_record_shape
    (PollResult.report ⟨"TPV", some (JVal.num 3), some (JVal.num 4), none, none, none⟩)
    _ rfl

end Testsend7
